import Mathlib

/-!
Shallow embedding of `saibautils` (src/saibautils/logger.py): the `Logger`
class with its constructor validation, the call-tree resolver
`_get_call_tree`, and the `_log` dispatch, together with theorems settling
the specification claims.
-/

namespace Saibautils

/-- A captured stack frame, as `_get_call_tree` consumes it: the frame's
function name (`frame_info.function`) and, when `'self' in frame.f_locals`,
the runtime class name of that receiver (`__class__.__name__`); `none`
models a frame whose locals hold no `self`. -/
structure FrameInfo where
  function : String
  selfClass : Option String
deriving DecidableEq, Repr

/-- Python truthiness of an `Optional[str]` value: `None` and the empty
string are falsy, every other string truthy. -/
def truthy : Option String → Bool
  | none => false
  | some s => s ≠ ""

/-- Substring test on lists of characters: `containsSub pat l` is true iff
`pat` occurs contiguously inside `l`. -/
def containsSub (pat : List Char) : List Char → Bool
  | [] => pat.isEmpty
  | c :: cs => pat.isPrefixOf (c :: cs) || containsSub pat cs

/-- The Python membership test `pat in s` on strings (substring test). -/
def strContains (s pat : String) : Bool :=
  containsSub pat.data s.data

/-- Python `str.upper()`, as used on the ASCII level names: uppercase every
character. -/
def strUpper (s : String) : String :=
  ⟨s.data.map Char.toUpper⟩

namespace Logger

/-- The five recognized mode strings (logger.py line 38). -/
def validModes : List String :=
  ["console", "elastic", "openobserve", "dual-elastic", "dual-observe"]

/-- Function names filtered out of the call tree (logger.py line 127). -/
def skippedFuncs : List String := ["<module>", "translate_proxy_headers"]

/-- Receiver class names filtered out as infrastructure noise
(logger.py line 131). -/
def infraClasses : List String :=
  ["Thread", "ThreadedTaskDispatcher", "HTTPChannel", "WSGITask", "Flask",
   "StructuredTool"]

/-- The per-frame step of the loop body of `_get_call_tree`
(logger.py lines 122-136): `none` when the frame is skipped, otherwise the
formatted entry appended to `call_hierarchy`. -/
def frameEntry (selfClassName : String) (f : FrameInfo) : Option String :=
  if f.function ∈ skippedFuncs ∨ f.selfClass = some "<module>" then none
  else if f.selfClass = some selfClassName then none
  else
    match f.selfClass with
    | some c =>
        if c ∈ infraClasses then none else some (c ++ "." ++ f.function)
    | none => some f.function

/-- `Logger._get_call_tree` (logger.py lines 119-137): the captured stack is
innermost-first with the resolver's own frame at index 0 (hence the
`drop 1` for `stack[1:]`); surviving frames are formatted, reversed to
outermost-first, and joined with `" -> "`. `selfClassName` is
`self.__class__.__name__`. -/
def get_call_tree (selfClassName : String) (stack : List FrameInfo) : String :=
  String.intercalate " -> "
    (((stack.drop 1).filterMap (frameEntry selfClassName)).reverse)

/-- Construction failures (`ValueError`s of `Logger.__init__`; the spec
calls them ConfigurationError). -/
inductive ConfigError where
  | invalidMode
  | elasticParamsMissing
  | ooParamsMissing
deriving DecidableEq, Repr

/-- The Elasticsearch sink handle: `Elasticsearch(url, api_key=elastic_key)`
(logger.py line 47), kept as the data it was constructed from. -/
structure ESClient where
  url : Option String
  api_key : Option String
deriving DecidableEq, Repr

/-- The OpenObserve sink handle:
`OpenObserve(user=oo_user, password=oo_password, host=url, verify=False)`
(logger.py line 49), kept as the data it was constructed from. -/
structure OOClient where
  user : Option String
  password : Option String
  host : Option String
deriving DecidableEq, Repr

/-- The state of a constructed `Logger`: its mode, the optional sink
handles `self.es` / `self.oo`, and `self.index`. -/
structure LoggerState where
  mode : String
  es : Option ESClient
  oo : Option OOClient
  index : Option String
deriving DecidableEq, Repr

/-- `Logger.__init__` (logger.py lines 14-50): mode validation, per-backend
credential checks under Python truthiness, then creation of the sink
handles implied by the mode. -/
def init (mode : String) (url elastic_key oo_user oo_password index : Option String) :
    Except ConfigError LoggerState :=
  if mode ∉ validModes then
    .error .invalidMode
  else if strContains mode "elastic" && !(truthy url && truthy elastic_key) then
    .error .elasticParamsMissing
  else if strContains mode "observe" && !((truthy url && truthy oo_user) && truthy oo_password) then
    .error .ooParamsMissing
  else
    .ok { mode := mode
          es := if strContains mode "elastic" then
                  some { url := url, api_key := elastic_key } else none
          oo := if strContains mode "observe" then
                  some { user := oo_user, password := oo_password, host := url } else none
          index := index }

/-- Document indexed into Elasticsearch by `_log` (logger.py line 67). -/
structure ESDoc where
  index : Option String
  message : String
  level : String
  call_tree : String
  ts : String
deriving DecidableEq, Repr

/-- Document indexed into OpenObserve by `_log` (logger.py lines 69-75). -/
structure OODoc where
  index : Option String
  level : String
  message : String
  call_tree : String
  datetime : String
deriving DecidableEq, Repr

/-- The observable effects of one `_log` call: the lines printed to the
console and the documents indexed into each backend. -/
structure EmitResult where
  consoleLines : List String
  esDocs : List ESDoc
  ooDocs : List OODoc
deriving DecidableEq, Repr

/-- `Logger._log` (logger.py lines 54-75). `stack` is the stack
`_get_call_tree` captures when `_log` invokes it; `tsElastic` and `tsOO`
are the two clock reads (`datetime.now(...)` formatted), passed in because
the clock is an external input. The logger's own class name is `"Logger"`. -/
def log (st : LoggerState) (message level : String) (stack : List FrameInfo)
    (tsElastic tsOO : String) : EmitResult :=
  let call_tree := get_call_tree "Logger" stack
  { consoleLines :=
      if st.mode ∈ ["console", "dual"] then
        [strUpper level ++ ": " ++ message ++ ", " ++ call_tree]
      else []
    esDocs :=
      if strContains st.mode "elastic" then
        [{ index := st.index, message := message, level := level,
           call_tree := call_tree, ts := tsElastic }]
      else []
    ooDocs :=
      if strContains st.mode "observe" then
        [{ index := st.index, level := level, message := message,
           call_tree := call_tree, datetime := tsOO }]
      else [] }

/-- `Logger.info` (logger.py lines 77-85). -/
def info (st : LoggerState) (message : String) (stack : List FrameInfo)
    (tsElastic tsOO : String) : EmitResult :=
  log st message "info" stack tsElastic tsOO

/-- `Logger.warning` (logger.py lines 87-95). -/
def warning (st : LoggerState) (message : String) (stack : List FrameInfo)
    (tsElastic tsOO : String) : EmitResult :=
  log st message "warning" stack tsElastic tsOO

/-- `Logger.error` (logger.py lines 97-105). -/
def error (st : LoggerState) (message : String) (stack : List FrameInfo)
    (tsElastic tsOO : String) : EmitResult :=
  log st message "error" stack tsElastic tsOO

/-- `Logger.debug` (logger.py lines 107-115). -/
def debug (st : LoggerState) (message : String) (stack : List FrameInfo)
    (tsElastic tsOO : String) : EmitResult :=
  log st message "debug" stack tsElastic tsOO

/-- The state `Logger("console")` constructs. -/
def consoleLogger : LoggerState :=
  { mode := "console", es := none, oo := none, index := some "logs" }

/-- The state `Logger("dual-elastic", url="u", elastic_key="k")` constructs. -/
def dualElasticLogger : LoggerState :=
  { mode := "dual-elastic", es := some { url := some "u", api_key := some "k" },
    oo := none, index := some "logs" }

/-- The state `Logger("dual-observe", url="u", oo_user="a", oo_password="p")`
constructs. -/
def dualObserveLogger : LoggerState :=
  { mode := "dual-observe", es := none,
    oo := some { user := some "a", password := some "p", host := some "u" },
    index := some "logs" }

/-- A captured stack holding only the resolver's own frame: every log call
sees at least this frame, and it is dropped by `stack[1:]`, so the resolved
call path is empty. -/
def bareStack : List FrameInfo := [⟨"_get_call_tree", some "Logger"⟩]

end Logger

open Logger

theorem strContains_console_elastic : strContains "console" "elastic" = false := by decide

theorem strContains_console_observe : strContains "console" "observe" = false := by decide

theorem strContains_elastic_elastic : strContains "elastic" "elastic" = true := by decide

theorem strContains_elastic_observe : strContains "elastic" "observe" = false := by decide

theorem strContains_oo_elastic : strContains "openobserve" "elastic" = false := by decide

theorem strContains_oo_observe : strContains "openobserve" "observe" = true := by decide

theorem strContains_dualE_elastic : strContains "dual-elastic" "elastic" = true := by decide

theorem strContains_dualE_observe : strContains "dual-elastic" "observe" = false := by decide

theorem strContains_dualO_elastic : strContains "dual-observe" "elastic" = false := by decide

theorem strContains_dualO_observe : strContains "dual-observe" "observe" = true := by decide

/-- C2: for every mode string outside the five recognized values,
`Logger.__init__` raises (a `ConfigurationError`) before any sink handle is
created: construction returns the invalid-mode error for all other
parameter values, so no `Logger` instance is produced. -/
theorem c2_invalid_mode_rejected (mode : String) (h : mode ∉ Logger.validModes)
    (url ek us pw idx : Option String) :
    Logger.init mode url ek us pw idx = .error .invalidMode := by
  simp [Logger.init, h]

theorem c2_invalid_mode_rejected_witness :
    "file" ∉ Logger.validModes ∧
    Logger.init "file" none none none none (some "logs") =
      .error .invalidMode :=
  ⟨by decide,
   c2_invalid_mode_rejected "file" (by decide) none none none none (some "logs")⟩

/-- C5: on the synthetic stack `[outer() -> Foo.bar() -> Logger.info()]`
captured innermost first (resolver frame at index 0), `_get_call_tree`
returns exactly `"outer -> Foo.bar"`: the Logger's own frames are dropped,
`Foo.bar` is formatted as `EnclosingType.functionName`, the survivors are
reversed to outermost-first order and joined with `" -> "`. -/
theorem c5_synthetic_stack_call_path :
    Logger.get_call_tree "Logger"
      [⟨"_get_call_tree", some "Logger"⟩, ⟨"info", some "Logger"⟩,
       ⟨"bar", some "Foo"⟩, ⟨"outer", none⟩] = "outer -> Foo.bar" := by
  decide

/-- C9: in mode `"console"` construction succeeds for every combination of
the optional parameters, including all-`None`: neither credential check
fires and no backend sink handle (`es`/`oo`) is created. -/
theorem c9_console_ignores_credentials (url ek us pw idx : Option String) :
    Logger.init "console" url ek us pw idx =
      .ok { mode := "console", es := none, oo := none, index := idx } := by
  simp [Logger.init, strContains_console_elastic, strContains_console_observe,
        Logger.validModes]

/-- C1: evaluation of the code at the failing input. The claim says each
emit call of a dual-mode Logger writes to every active sink implied by the
mode, the console included; but `_log` prints only when
`self.mode ∈ ["console", "dual"]` (logger.py line 64), and `"dual"` is not
a constructible mode, so for both `"dual-elastic"` and `"dual-observe"`
(which do construct their backend handle) `info` emits no console line and
only indexes the backend document. -/
theorem c1_dual_mode_skips_console :
    Logger.init "dual-elastic" (some "u") (some "k") none none (some "logs") =
      .ok Logger.dualElasticLogger ∧
    Logger.info Logger.dualElasticLogger "hello" Logger.bareStack "T" "T" =
      { consoleLines := [],
        esDocs := [{ index := some "logs", message := "hello", level := "info",
                     call_tree := "", ts := "T" }],
        ooDocs := [] } ∧
    Logger.init "dual-observe" (some "u") none (some "a") (some "p") (some "logs") =
      .ok Logger.dualObserveLogger ∧
    Logger.info Logger.dualObserveLogger "hello" Logger.bareStack "T" "T" =
      { consoleLines := [],
        esDocs := [],
        ooDocs := [{ index := some "logs", level := "info", message := "hello",
                     call_tree := "", datetime := "T" }] } :=
  ⟨rfl, by decide, rfl, by decide⟩

/-- C3: for every recognized mode implying backend-A (the modes containing
`"elastic"`), construction fails with the Elasticsearch
`ConfigurationError` when the URL or the API key is missing (not truthy),
and succeeds, creating the Elasticsearch sink handle, when both are
supplied. -/
theorem c3_elastic_credentials (mode : String) (hm : mode ∈ Logger.validModes)
    (he : strContains mode "elastic" = true) (url ek us pw idx : Option String) :
    (¬(truthy url = true ∧ truthy ek = true) →
      Logger.init mode url ek us pw idx = .error .elasticParamsMissing) ∧
    (truthy url = true → truthy ek = true →
      Logger.init mode url ek us pw idx =
        .ok { mode := mode, es := some { url := url, api_key := ek },
              oo := none, index := idx }) := by
  simp only [Logger.validModes, List.mem_cons, List.not_mem_nil, or_false] at hm
  rcases hm with rfl | rfl | rfl | rfl | rfl
  · exact absurd he (by decide)
  · constructor
    · intro h
      cases hu : truthy url <;> cases hk : truthy ek <;>
        simp_all [Logger.init, strContains_elastic_elastic,
                  strContains_elastic_observe, Logger.validModes]
    · intro hu hk
      simp [Logger.init, hu, hk, strContains_elastic_elastic,
            strContains_elastic_observe, Logger.validModes]
  · exact absurd he (by decide)
  · constructor
    · intro h
      cases hu : truthy url <;> cases hk : truthy ek <;>
        simp_all [Logger.init, strContains_dualE_elastic,
                  strContains_dualE_observe, Logger.validModes]
    · intro hu hk
      simp [Logger.init, hu, hk, strContains_dualE_elastic,
            strContains_dualE_observe, Logger.validModes]
  · exact absurd he (by decide)

theorem c3_elastic_credentials_witness :
    ("elastic" ∈ Logger.validModes ∧ strContains "elastic" "elastic" = true) ∧
    Logger.init "elastic" (some "u") none none none (some "logs") =
      .error .elasticParamsMissing ∧
    Logger.init "elastic" (some "u") (some "k") none none (some "logs") =
      .ok { mode := "elastic", es := some { url := some "u", api_key := some "k" },
            oo := none, index := some "logs" } :=
  ⟨⟨by decide, by decide⟩,
   (c3_elastic_credentials "elastic" (by decide) (by decide)
      (some "u") none none none (some "logs")).1 (by decide),
   (c3_elastic_credentials "elastic" (by decide) (by decide)
      (some "u") (some "k") none none (some "logs")).2 (by decide) (by decide)⟩

/-- C4: for every recognized mode implying backend-B (the modes containing
`"observe"`), construction fails with the OpenObserve `ConfigurationError`
when any of URL, username, or password is missing (not truthy), and
succeeds, creating the OpenObserve sink handle, when all three are
supplied. -/
theorem c4_openobserve_credentials (mode : String) (hm : mode ∈ Logger.validModes)
    (ho : strContains mode "observe" = true) (url ek us pw idx : Option String) :
    (¬(truthy url = true ∧ truthy us = true ∧ truthy pw = true) →
      Logger.init mode url ek us pw idx = .error .ooParamsMissing) ∧
    (truthy url = true → truthy us = true → truthy pw = true →
      Logger.init mode url ek us pw idx =
        .ok { mode := mode, es := none,
              oo := some { user := us, password := pw, host := url },
              index := idx }) := by
  simp only [Logger.validModes, List.mem_cons, List.not_mem_nil, or_false] at hm
  rcases hm with rfl | rfl | rfl | rfl | rfl
  · exact absurd ho (by decide)
  · exact absurd ho (by decide)
  · constructor
    · intro h
      cases hu : truthy url <;> cases ha : truthy us <;> cases hp : truthy pw <;>
        simp_all [Logger.init, strContains_oo_elastic, strContains_oo_observe,
                  Logger.validModes]
    · intro hu ha hp
      simp [Logger.init, hu, ha, hp, strContains_oo_elastic,
            strContains_oo_observe, Logger.validModes]
  · exact absurd ho (by decide)
  · constructor
    · intro h
      cases hu : truthy url <;> cases ha : truthy us <;> cases hp : truthy pw <;>
        simp_all [Logger.init, strContains_dualO_elastic, strContains_dualO_observe,
                  Logger.validModes]
    · intro hu ha hp
      simp [Logger.init, hu, ha, hp, strContains_dualO_elastic,
            strContains_dualO_observe, Logger.validModes]

theorem c4_openobserve_credentials_witness :
    ("openobserve" ∈ Logger.validModes ∧ strContains "openobserve" "observe" = true) ∧
    Logger.init "openobserve" (some "u") none (some "a") none (some "logs") =
      .error .ooParamsMissing ∧
    Logger.init "openobserve" (some "u") none (some "a") (some "p") (some "logs") =
      .ok { mode := "openobserve", es := none,
            oo := some { user := some "a", password := some "p", host := some "u" },
            index := some "logs" } :=
  ⟨⟨by decide, by decide⟩,
   (c4_openobserve_credentials "openobserve" (by decide) (by decide)
      (some "u") none (some "a") none (some "logs")).1 (by decide),
   (c4_openobserve_credentials "openobserve" (by decide) (by decide)
      (some "u") none (some "a") (some "p") (some "logs")).2
     (by decide) (by decide) (by decide)⟩

/-- C6: for every captured stack whose frames are all filtered out (every
frame beyond the resolver's own yields no entry), `_get_call_tree` returns
the empty string, and a console-mode `info` call on that stack still emits
its record, with an empty call-path field, rather than raising. -/
theorem c6_all_frames_filtered (stack : List FrameInfo) (m tsE tsO : String)
    (h : ∀ f ∈ stack.drop 1, Logger.frameEntry "Logger" f = none) :
    Logger.get_call_tree "Logger" stack = "" ∧
    Logger.info Logger.consoleLogger m stack tsE tsO =
      { consoleLines := ["INFO: " ++ m ++ ", "], esDocs := [], ooDocs := [] } := by
  have h1 : Logger.get_call_tree "Logger" stack = "" := by
    unfold Logger.get_call_tree
    rw [List.filterMap_eq_nil_iff.mpr h]
    rfl
  refine ⟨h1, ?_⟩
  simp [Logger.info, Logger.log, Logger.consoleLogger, h1,
        strContains_console_elastic, strContains_console_observe]
  have h2 : strUpper "info" = "INFO" := by decide
  have h3 : ("INFO" : String) ++ ": " = "INFO: " := by decide
  rw [h2, h3]

theorem c6_all_frames_filtered_witness :
    (∀ f ∈ ([⟨"_get_call_tree", some "Logger"⟩, ⟨"<module>", none⟩,
             ⟨"<module>", none⟩] : List FrameInfo).drop 1,
        Logger.frameEntry "Logger" f = none) ∧
    Logger.get_call_tree "Logger"
      [⟨"_get_call_tree", some "Logger"⟩, ⟨"<module>", none⟩,
       ⟨"<module>", none⟩] = "" ∧
    Logger.info Logger.consoleLogger "x"
      [⟨"_get_call_tree", some "Logger"⟩, ⟨"<module>", none⟩,
       ⟨"<module>", none⟩] "T" "T" =
      { consoleLines := ["INFO: " ++ "x" ++ ", "], esDocs := [], ooDocs := [] } :=
  ⟨by decide,
   c6_all_frames_filtered
     [⟨"_get_call_tree", some "Logger"⟩, ⟨"<module>", none⟩, ⟨"<module>", none⟩]
     "x" "T" "T" (by decide)⟩

/-- C7: for a console-mode Logger, `info("hello")` when the resolved call
path is empty emits exactly the literal console line `"INFO: hello, "`
(level uppercased, colon-space, the message, comma-space, empty call path),
and nothing to any backend. -/
theorem c7_console_info_empty_path (stack : List FrameInfo) (tsE tsO : String)
    (h : Logger.get_call_tree "Logger" stack = "") :
    Logger.info Logger.consoleLogger "hello" stack tsE tsO =
      { consoleLines := ["INFO: hello, "], esDocs := [], ooDocs := [] } := by
  simp [Logger.info, Logger.log, Logger.consoleLogger, h,
        strContains_console_elastic, strContains_console_observe]
  decide

theorem c7_console_info_empty_path_witness :
    Logger.get_call_tree "Logger" Logger.bareStack = "" ∧
    Logger.info Logger.consoleLogger "hello" Logger.bareStack "T" "T" =
      { consoleLines := ["INFO: hello, "], esDocs := [], ooDocs := [] } :=
  ⟨by decide, c7_console_info_empty_path Logger.bareStack "T" "T" (by decide)⟩

/-- C8: the resolver is a total function of the stack (it can never raise),
and a frame whose locals hold no `self` receiver is treated as having no
enclosing type: unless its function name is itself filtered, it is included
in the call tree as its bare function name, never turned into an error. -/
theorem c8_missing_receiver_included (cls fn : String)
    (h : fn ∉ Logger.skippedFuncs) :
    Logger.frameEntry cls ⟨fn, none⟩ = some fn ∧
    Logger.get_call_tree cls [⟨"_get_call_tree", some cls⟩, ⟨fn, none⟩] = fn := by
  have h1 : Logger.frameEntry cls ⟨fn, none⟩ = some fn := by
    simp [Logger.frameEntry, h]
  refine ⟨h1, ?_⟩
  unfold Logger.get_call_tree
  simp [h1]
  rfl

theorem c8_missing_receiver_included_witness :
    "handler" ∉ Logger.skippedFuncs ∧
    Logger.frameEntry "Logger" ⟨"handler", none⟩ = some "handler" ∧
    Logger.get_call_tree "Logger"
      [⟨"_get_call_tree", some "Logger"⟩, ⟨"handler", none⟩] = "handler" :=
  ⟨by decide, c8_missing_receiver_included "Logger" "handler" (by decide)⟩

/-- C10: credential presence is Python truthiness, not argument presence:
for every recognized backend-A mode, an empty-string URL or API key still
fails construction with the Elasticsearch `ConfigurationError`, and for
every recognized backend-B mode an empty-string URL, username, or password
still fails with the OpenObserve `ConfigurationError`. -/
theorem c10_empty_string_credentials (mode : String)
    (hm : mode ∈ Logger.validModes) (url ek us pw idx : Option String) :
    (strContains mode "elastic" = true →
      Logger.init mode (some "") ek us pw idx = .error .elasticParamsMissing ∧
      Logger.init mode url (some "") us pw idx = .error .elasticParamsMissing) ∧
    (strContains mode "observe" = true →
      Logger.init mode (some "") ek us pw idx = .error .ooParamsMissing ∧
      Logger.init mode url ek (some "") pw idx = .error .ooParamsMissing ∧
      Logger.init mode url ek us (some "") idx = .error .ooParamsMissing) := by
  simp only [Logger.validModes, List.mem_cons, List.not_mem_nil, or_false] at hm
  rcases hm with rfl | rfl | rfl | rfl | rfl
  · constructor
    · intro he; exact absurd he (by decide)
    · intro ho; exact absurd ho (by decide)
  · constructor
    · intro _
      constructor <;>
        simp [Logger.init, truthy, strContains_elastic_elastic,
              strContains_elastic_observe, Logger.validModes]
    · intro ho; exact absurd ho (by decide)
  · constructor
    · intro he; exact absurd he (by decide)
    · intro _
      refine ⟨?_, ?_, ?_⟩ <;>
        (cases hu : truthy url <;> cases ha : truthy us <;> cases hp : truthy pw <;>
          simp_all [Logger.init, truthy, strContains_oo_elastic,
                    strContains_oo_observe, Logger.validModes])
  · constructor
    · intro _
      constructor <;>
        simp [Logger.init, truthy, strContains_dualE_elastic,
              strContains_dualE_observe, Logger.validModes]
    · intro ho; exact absurd ho (by decide)
  · constructor
    · intro he; exact absurd he (by decide)
    · intro _
      refine ⟨?_, ?_, ?_⟩ <;>
        (cases hu : truthy url <;> cases ha : truthy us <;> cases hp : truthy pw <;>
          simp_all [Logger.init, truthy, strContains_dualO_elastic,
                    strContains_dualO_observe, Logger.validModes])

theorem c10_empty_string_credentials_witness :
    ("elastic" ∈ Logger.validModes ∧
      Logger.init "elastic" (some "") (some "k") none none (some "logs") =
        .error .elasticParamsMissing) ∧
    ("openobserve" ∈ Logger.validModes ∧
      Logger.init "openobserve" (some "u") none (some "a") (some "") (some "logs") =
        .error .ooParamsMissing) :=
  ⟨⟨by decide,
    ((c10_empty_string_credentials "elastic" (by decide)
        none (some "k") none none (some "logs")).1 (by decide)).1⟩,
   ⟨by decide,
    ((c10_empty_string_credentials "openobserve" (by decide)
        (some "u") none (some "a") (some "") (some "logs")).2 (by decide)).2.2⟩⟩

end Saibautils
